import Mathlib

/-!
Verification of the yelp_kafka partition coordinator and discovery module.

The repository provides a Partition Coordinator (`Partitioner`) that arbitrates
ownership of Kafka topic partitions across a group of processes via a Zookeeper
set-partitioner primitive, and a `discovery` module that opens Kafka
connections for a list of clusters.  `discovery.get_kafka_connection` is
embedded directly from `yelp_kafka/discovery.py`; the Partition Coordinator
(`yelp_kafka/partitioner.py`) is not part of the available sources (only its
test suite is), so its operations are modelled from the specification, as
marked on each definition.
-/

set_option maxRecDepth 100000

namespace YelpKafka

/-! ## Partition identifier parsing -/

/-- Split a character list at the first occurrence of `c`, returning the
characters before and after it, or `none` when `c` does not occur. -/
def breakAtFirst (c : Char) : List Char → Option (List Char × List Char)
  | [] => none
  | x :: xs =>
    if x = c then some ([], xs)
    else (breakAtFirst c xs).map (fun p => (x :: p.1, p.2))

/-- Value of a decimal digit character. -/
def digitVal (c : Char) : Option Nat :=
  if 48 ≤ c.toNat ∧ c.toNat ≤ 57 then some (c.toNat - 48) else none

def parseNatAux : List Char → Nat → Option Nat
  | [], acc => some acc
  | c :: cs, acc =>
    match digitVal c with
    | some d => parseNatAux cs (acc * 10 + d)
    | none => none

/-- Parse an unsigned decimal integer; fails on the empty string or any
non-digit character. -/
def parseNat (s : String) : Option Nat :=
  if s.data.isEmpty then none else parseNatAux s.data 0

/-- Modelled from the spec: identifier parsing rule of the Partition
Coordinator (`yelp_kafka/partitioner.py` is missing from the sources).  An
identifier is split at its LAST `-` separator into (topic, index); the index
is parsed as an unsigned integer.  Malformed identifiers yield `none`. -/
def parseIdent (s : String) : Option (String × Nat) :=
  match breakAtFirst '-' s.data.reverse with
  | none => none
  | some (idxRev, topicRev) =>
    (parseNat (String.mk idxRev.reverse)).map
      (fun n => (String.mk topicRev.reverse, n))

/-- Topic name ↦ ordered list of owned sub-partition indices (the Acquired
Partition Mapping), as an insertion-ordered association list. -/
abbrev TopicMapping := List (String × List Nat)

/-- Append index `i` to topic `t`'s entry, keeping first-insertion order of
topics (like a Python `defaultdict(list)` filled in iteration order). -/
def insertIdx (m : TopicMapping) (t : String) (i : Nat) : TopicMapping :=
  match m with
  | [] => [(t, [i])]
  | (u, is) :: rest =>
    if u = t then (u, is ++ [i]) :: rest else (u, is) :: insertIdx rest t i

/-- Modelled from the spec: parse the primitive's currently-held identifier
strings into the Acquired Partition Mapping; `none` if any identifier is
malformed (a programming-level invariant violation per the spec). -/
def get_acquired_partitions (ids : List String) : Option TopicMapping :=
  ids.foldl
    (fun acc s => acc.bind fun m => (parseIdent s).map fun p => insertIdx m p.1 p.2)
    (some [])

/-! ## SHA-1 (for the hashed group path)

A complete executable SHA-1 over bytes, used to give the group-path contract
its bit-exact content; validated below against the standard `"abc"` test
vector and the digest used by the repository's test suite. -/

def w32 (n : Nat) : Nat := n % 4294967296

def rotl32 (b n : Nat) : Nat := w32 ((n <<< b) ||| (n >>> (32 - b)))

def sha1F (t b c d : Nat) : Nat :=
  if t < 20 then (b &&& c) ||| ((4294967295 ^^^ b) &&& d)
  else if t < 40 then b ^^^ c ^^^ d
  else if t < 60 then (b &&& c) ||| (b &&& d) ||| (c &&& d)
  else b ^^^ c ^^^ d

def sha1K (t : Nat) : Nat :=
  if t < 20 then 1518500249
  else if t < 40 then 1859775393
  else if t < 60 then 2400959708
  else 3395469782

/-- Big-endian assembly of 32-bit words from bytes. -/
def bytesToWords : List Nat → List Nat
  | b0 :: b1 :: b2 :: b3 :: rest =>
    (b0 * 16777216 + b1 * 65536 + b2 * 256 + b3) :: bytesToWords rest
  | _ => []

/-- One message-schedule extension step on the reversed word list. -/
def sha1ExtStep (rws : List Nat) : List Nat :=
  rotl32 1 (rws.getD 2 0 ^^^ rws.getD 7 0 ^^^ rws.getD 13 0 ^^^ rws.getD 15 0) :: rws

/-- The 80-word message schedule of one 64-byte chunk. -/
def sha1Schedule (chunk : List Nat) : List Nat :=
  (Nat.repeat sha1ExtStep 64 (bytesToWords chunk).reverse).reverse

structure Sha1H where
  h0 : Nat
  h1 : Nat
  h2 : Nat
  h3 : Nat
  h4 : Nat
  deriving DecidableEq, Repr

def sha1Round (st : Nat × Nat × Nat × Nat × Nat × Nat) (w : Nat) :
    Nat × Nat × Nat × Nat × Nat × Nat :=
  match st with
  | (a, b, c, d, e, t) =>
    (w32 (rotl32 5 a + sha1F t b c d + e + sha1K t + w), a, rotl32 30 b, c, d, t + 1)

def sha1Compress (h : Sha1H) (chunk : List Nat) : Sha1H :=
  match (sha1Schedule chunk).foldl sha1Round (h.h0, h.h1, h.h2, h.h3, h.h4, 0) with
  | (a, b, c, d, e, _) =>
    ⟨w32 (h.h0 + a), w32 (h.h1 + b), w32 (h.h2 + c), w32 (h.h3 + d), w32 (h.h4 + e)⟩

def chunks64Aux : Nat → List Nat → List (List Nat)
  | 0, _ => []
  | _, [] => []
  | fuel + 1, l => l.take 64 :: chunks64Aux fuel (l.drop 64)

def chunks64 (l : List Nat) : List (List Nat) := chunks64Aux l.length l

/-- SHA-1 padding: `0x80`, zeros to 56 mod 64, then the 64-bit big-endian
bit length. -/
def sha1Pad (msg : List Nat) : List Nat :=
  let len := msg.length
  msg ++ 128 :: List.replicate ((119 - len % 64) % 64) 0
    ++ ((List.range 8).reverse.map fun i => ((8 * len) >>> (8 * i)) % 256)

def sha1Init : Sha1H := ⟨1732584193, 4023233417, 2562383102, 271733878, 3285377520⟩

def hexChar (n : Nat) : Char :=
  if n < 10 then Char.ofNat (48 + n) else Char.ofNat (87 + n)

/-- Lowercase hexadecimal rendering of a 32-bit word. -/
def toHex8 (n : Nat) : List Char :=
  (List.range 8).reverse.map fun i => hexChar ((n >>> (4 * i)) % 16)

def sha1Bytes (msg : List Nat) : List Nat :=
  let h := (chunks64 (sha1Pad msg)).foldl sha1Compress sha1Init
  [h.h0, h.h1, h.h2, h.h3, h.h4]

/-- UTF-8 encoding of a Unicode code point. -/
def utf8Bytes (c : Nat) : List Nat :=
  if c < 128 then [c]
  else if c < 2048 then [192 + c / 64, 128 + c % 64]
  else if c < 65536 then [224 + c / 4096, 128 + c / 64 % 64, 128 + c % 64]
  else [240 + c / 262144, 128 + c / 4096 % 64, 128 + c / 64 % 64, 128 + c % 64]

def strBytes (s : String) : List Nat :=
  (s.data.map fun c => utf8Bytes c.toNat).flatten

/-- Lowercase hex SHA-1 digest of a string's UTF-8 bytes
(`hashlib.sha1(...).hexdigest()`). -/
def sha1hex (s : String) : String :=
  String.mk ((sha1Bytes (strBytes s)).map toHex8).flatten

/-! ## Group path -/

/-- Python `repr` of a string without special characters: the string wrapped
in single quotes. -/
def pyReprStr (s : String) : String :=
  String.singleton (Char.ofNat 39) ++ s ++ String.singleton (Char.ofNat 39)

/-- Python `repr` of a list of plain strings: `[` `'a', 'b'` `]`. -/
def pyReprList (l : List String) : String :=
  "[" ++ String.intercalate ", " (l.map pyReprStr) ++ "]"

/-- Lexicographic code-point comparison of character lists (Python string
ordering). -/
def strLe : List Char → List Char → Bool
  | [], _ => true
  | _ :: _, [] => false
  | x :: xs, y :: ys =>
    if x.toNat < y.toNat then true
    else if y.toNat < x.toNat then false
    else strLe xs ys

/-- Python `sorted` on strings: lexicographic by code point. -/
def sortStrings (l : List String) : List String :=
  l.insertionSort (fun a b => strLe a.data b.data = true)

/-- Modelled from the spec: the Coordinator's deterministic group path under
the coordination service (`yelp_kafka/partitioner.py` is missing from the
sources).  With hashed naming the path is
`root/group/sha1hex(repr(sorted(topics)))`; otherwise `root/group`.  The
root is `/yelp-kafka`. -/
def zk_group_path (use_group_sha : Bool) (group_id : String) (topics : List String) : String :=
  if use_group_sha then
    "/yelp-kafka/" ++ group_id ++ "/" ++ sha1hex (pyReprList (sortStrings topics))
  else
    "/yelp-kafka/" ++ group_id

/-! ## Partition Coordinator state

`yelp_kafka/partitioner.py` is missing from the sources; the state and the
operations below are modelled from the specification (§3, §4.2–§4.4), with
field names taken from the test suite (`partitions_set`, `_partitioner`,
`acquired_partitions`, `released_flag`, `last_partitions_refresh`,
`force_partitions_refresh`). -/

/-- Coordinator-level errors: `partitionerError` models `PartitionerError`
(wrapped callback/creation/enumeration failures), `zookeeperError` models
`PartitionerZookeeperError` (fatal primitive failure), `malformedIdentifier`
models the invariant violation on an unparsable held identifier. -/
inductive CoordError where
  | partitionerError (msg : String)
  | zookeeperError (msg : String)
  | malformedIdentifier
  deriving DecidableEq, Repr

/-- Modelled from the spec: the Partition Coordinator's mutable state.  The
live coordination-primitive handle is an `Option Nat` (an identity for the
instance), which structurally enforces "at most one live primitive".
`create_count` is the model's supply of fresh primitive identities. -/
structure CoordState where
  partitions_set : Finset String
  acquired_partitions : TopicMapping
  released_flag : Bool
  kpartitioner : Option Nat
  last_partitions_refresh : Nat
  force_partitions_refresh : Bool
  create_count : Nat
  deriving DecidableEq

/-- Modelled from the spec (§4.4): state effect of `release_and_finish` —
if a primitive is live, release any held partitions (clearing the Acquired
Partition Mapping, setting the Released Flag) and clear the primitive handle
to none; a no-op when no primitive exists. -/
def release_and_finish_state (st : CoordState) : CoordState :=
  match st.kpartitioner with
  | none => st
  | some _ =>
    { st with kpartitioner := none, acquired_partitions := [], released_flag := true }

/-- Modelled from the spec (§3 Refresh Clock): a refresh is due when it has
been explicitly forced or the cooldown has elapsed since the last successful
partition-set computation. -/
def need_partitions_refresh (cooldown now : Nat) (st : CoordState) : Bool :=
  st.force_partitions_refresh || decide (st.last_partitions_refresh + cooldown ≤ now)

/-! ## The per-tick state machine (`_handle_group`) -/

/-- The four lifecycle states of the external group-partitioning primitive. -/
inductive PartitionState where
  | allocating
  | acquired
  | release
  | failure
  deriving DecidableEq, Repr

/-- Outcome of one `_handle_group` observation: the new coordinator state,
the error raised to the tick caller (if any), the arguments of every
invocation of the caller's acquire/release callbacks, and the number of
primitive-facing `release_set`/`wait_for_acquire` calls and of
`release_and_finish`-class teardowns. -/
structure HandleResult where
  st : CoordState
  err : Option CoordError
  acquireCalls : List TopicMapping
  releaseCalls : List TopicMapping
  releaseSetCalls : Nat
  waitForAcquireCalls : Nat
  teardowns : Nat
  deriving DecidableEq

/-- Modelled from the spec (§4.3): one observation of the primitive's state.
Caller callbacks are pure functions returning `Except String Unit`; an
`error` result models the callback raising.

* ALLOCATING: wait for acquisition; no ownership change.
* ACQUIRED: parse the held identifiers into the Acquired Partition Mapping,
  commit it and clear the Released Flag, then invoke the acquire callback
  with the new mapping; a callback failure is wrapped as a coordinator-level
  error but the mapping stays committed.
* RELEASE: if the Released Flag is unset, invoke the release callback with
  the current mapping, signal `release_set`, clear the mapping and set the
  flag; a callback failure is wrapped but `release_set` is still signalled.
  With the flag already set, only `release_set` is signalled.
* FAILURE: exactly one teardown, then a fatal coordination error. -/
def handle_group (acquireCb releaseCb : TopicMapping → Except String Unit)
    (pstate : PartitionState) (held : List String) (st : CoordState) : HandleResult :=
  match pstate with
  | .failure =>
    { st := release_and_finish_state st
      err := some (.zookeeperError "Lost or unable to acquire partitions")
      acquireCalls := [], releaseCalls := []
      releaseSetCalls := 0, waitForAcquireCalls := 0, teardowns := 1 }
  | .release =>
    if st.released_flag then
      { st := st, err := none, acquireCalls := [], releaseCalls := []
        releaseSetCalls := 1, waitForAcquireCalls := 0, teardowns := 0 }
    else
      let m := st.acquired_partitions
      match releaseCb m with
      | .ok _ =>
        { st := { st with released_flag := true, acquired_partitions := [] }
          err := none, acquireCalls := [], releaseCalls := [m]
          releaseSetCalls := 1, waitForAcquireCalls := 0, teardowns := 0 }
      | .error e =>
        { st := st
          err := some (.partitionerError ("Release handler failed: " ++ e))
          acquireCalls := [], releaseCalls := [m]
          releaseSetCalls := 1, waitForAcquireCalls := 0, teardowns := 0 }
  | .acquired =>
    match get_acquired_partitions held with
    | none =>
      { st := st, err := some .malformedIdentifier, acquireCalls := []
        releaseCalls := [], releaseSetCalls := 0, waitForAcquireCalls := 0
        teardowns := 0 }
    | some m =>
      let st1 := { st with acquired_partitions := m, released_flag := false }
      match acquireCb m with
      | .ok _ =>
        { st := st1, err := none, acquireCalls := [m], releaseCalls := []
          releaseSetCalls := 0, waitForAcquireCalls := 0, teardowns := 0 }
      | .error e =>
        { st := st1
          err := some (.partitionerError ("Acquire handler failed: " ++ e))
          acquireCalls := [m], releaseCalls := []
          releaseSetCalls := 0, waitForAcquireCalls := 0, teardowns := 0 }
  | .allocating =>
    { st := st, err := none, acquireCalls := [], releaseCalls := []
      releaseSetCalls := 0, waitForAcquireCalls := 1, teardowns := 0 }

/-! ## Refresh / rebalance orchestration (`_get_partitioner`) -/

/-- Outcome of one refresh opportunity: the new coordinator state, the
primitive handle handed back to the tick (if any), the error raised (if
any), and the number of teardowns and primitive creations performed. -/
structure RefreshResult where
  st : CoordState
  ret : Option Nat
  err : Option CoordError
  teardowns : Nat
  creations : Nat
  deriving DecidableEq

/-- Modelled from the spec (§4.3 refresh orchestration, §7 propagation): on a
refresh opportunity (refresh due, or no live primitive), recompute the
Target Partition Set (`enum` is the Enumerator's result).  If enumeration
fails on a forced refresh: teardown and raise; if unforced: keep the
existing primitive (deferred).  On success, if the recomputed set differs
from the stored set or no primitive exists: exactly one teardown, one fresh
primitive creation, and the new set is stored; otherwise the live primitive
is returned unchanged.  The force flag is cleared and the Refresh Clock
updated on every successful recomputation. -/
def get_partitioner_step (cooldown now : Nat) (enum : Except String (Finset String))
    (st : CoordState) : RefreshResult :=
  if need_partitions_refresh cooldown now st = true ∨ st.kpartitioner = none then
    match enum with
    | .error e =>
      if st.force_partitions_refresh then
        { st := release_and_finish_state st, ret := none
          err := some (.partitionerError ("Failed to get partitions set from Kafka: " ++ e))
          teardowns := 1, creations := 0 }
      else
        { st := st, ret := st.kpartitioner, err := none, teardowns := 0, creations := 0 }
    | .ok partitions =>
      let st1 := { st with force_partitions_refresh := false, last_partitions_refresh := now }
      if partitions = st1.partitions_set ∧ st1.kpartitioner ≠ none then
        { st := st1, ret := st1.kpartitioner, err := none, teardowns := 0, creations := 0 }
      else
        let st2 := release_and_finish_state st1
        let h := st2.create_count
        { st := { st2 with kpartitioner := some h, create_count := h + 1,
                           partitions_set := partitions }
          ret := some h, err := none, teardowns := 1, creations := 1 }
  else
    { st := st, ret := st.kpartitioner, err := none, teardowns := 0, creations := 0 }

/-! ## Teardown of connections (`_close_connections`) -/

/-- Outcome of `_close_connections`: the reset state and the number of
`stop`/`close` calls on the coordination-service session and of `close`
calls on the broker connection.  The operation never raises. -/
structure CloseResult where
  st : CoordState
  zkStopCalls : Nat
  zkCloseCalls : Nat
  kafkaCloseCalls : Nat
  deriving DecidableEq

/-- Modelled from the spec (§4.4): perform `release_and_finish` if needed,
stop and close the coordination-service session, close the broker
connection, and reset the coordinator state (Target Partition Set → empty,
primitive handle → none, Refresh Clock → zero).  Safe to call when no
primitive or connection exists. -/
def close_connections (st : CoordState) : CloseResult :=
  let st1 := release_and_finish_state st
  { st := { st1 with partitions_set := ∅, kpartitioner := none,
                     last_partitions_refresh := 0 }
    zkStopCalls := 1, zkCloseCalls := 1, kafkaCloseCalls := 1 }

/-! ## Primitive factory (`_create_partitioner`) -/

/-- Connection state reported by the coordination-service session. -/
inductive KazooState where
  | connected
  | suspended
  | lost
  deriving DecidableEq, Repr

/-- Outcome of `_create_partitioner`: the number of (re)connect requests
issued on the session, the construction arguments
(path, arbitration set, time boundary) of the primitive when one was
instantiated, and the error raised when reconnection failed. -/
structure CreateResult where
  startCalls : Nat
  created : Option (String × Finset String × Nat)
  err : Option CoordError
  deriving DecidableEq

/-- Modelled from the spec (§4.2): if the session reports a non-connected
state, first issue a (re)connect request (`startOk` models its outcome;
a failure is wrapped as a coordinator-level error and no primitive is
constructed); then construct the primitive with the deterministic group
path, the target partition set, and a time boundary equal to the configured
cooldown. -/
def create_partitioner (zkState : KazooState) (startOk : Bool)
    (group_path : String) (cooldown : Nat) (partitions : Finset String) : CreateResult :=
  if zkState = KazooState.connected then
    { startCalls := 0, created := some (group_path, partitions, cooldown), err := none }
  else if startOk then
    { startCalls := 1, created := some (group_path, partitions, cooldown), err := none }
  else
    { startCalls := 1, created := none
      err := some (.partitionerError "Failed to connect to Zookeeper") }

/-! ## Topic-Partition Enumerator (`get_partitions_set`) -/

/-- Render a (topic, sub-partition index) pair as a partition identifier. -/
def renderPartition (t : String) (p : Nat) : String := t ++ "-" ++ toString p

/-- The identifiers contributed by one requested topic: all of its
sub-partitions per the broker metadata, or nothing when the topic is absent
from the metadata. -/
def topic_partition_ids (metadata : List (String × List Nat)) (t : String) : List String :=
  match metadata.find? (fun p => p.1 == t) with
  | some p => p.2.map (renderPartition t)
  | none => []

/-- Modelled from the spec (§4.1): expand each requested topic into its
addressable sub-partition identifiers according to the broker metadata
(a topic ↦ partition-index-list mapping), as a set. -/
def get_partitions_set (topics : List String) (metadata : List (String × List Nat)) :
    Finset String :=
  ((topics.map (topic_partition_ids metadata)).flatten).toFinset

/-! ## Discovery: `get_kafka_connection` (embedded from
`yelp_kafka/discovery.py`, lines 104–140)

Clusters are given by name; `mk` models `KafkaClient(broker_list,
client_id)`, returning the created client (a `Nat` identity) or `none` when
construction raises.  The result records the clients closed on the failure
path and every client that was opened. -/

/-- Result of `get_kafka_connection`: the returned `(cluster, client)` list
or the `DiscoveryError` message, every client opened, and every client
closed. -/
structure ConnResult where
  result : Except String (List (String × Nat))
  opened : List Nat
  closed : List Nat

/-- The loop of `get_kafka_connection`: for each cluster, create a client
and append it to `connected_clusters`; on a creation failure, close every
previously connected client and raise a `DiscoveryError` naming the failed
cluster. -/
def get_kafka_connection_aux (mk : String → Option Nat)
    (connected_clusters : List (String × Nat)) : List String → ConnResult
  | [] =>
    { result := .ok connected_clusters
      opened := connected_clusters.map Prod.snd, closed := [] }
  | cluster_name :: rest =>
    match mk cluster_name with
    | some client =>
      get_kafka_connection_aux mk (connected_clusters ++ [(cluster_name, client)]) rest
    | none =>
      { result := .error ("Failed to connect to cluster " ++ cluster_name)
        opened := connected_clusters.map Prod.snd
        closed := connected_clusters.map Prod.snd }

/-- Embedded from `yelp_kafka/discovery.py:104`: get a Kafka connection for
each cluster in the list; all-or-nothing. -/
def get_kafka_connection (mk : String → Option Nat) (clusters : List String) : ConnResult :=
  get_kafka_connection_aux mk [] clusters

/-! ## Sample data for the witnesses -/

/-- A sample coordinator state: a live primitive `0` built for
`{top-1, top1-2}`, acquired partitions for `topic1`, a pending forced
refresh. -/
def sampleState : CoordState :=
  { partitions_set := (["top-1", "top1-2"] : List String).toFinset
    acquired_partitions := [("topic1", [0, 1, 3])]
    released_flag := false
    kpartitioner := some 0
    last_partitions_refresh := 5
    force_partitions_refresh := true
    create_count := 1 }

/-- A callback that always succeeds. -/
def okCb : TopicMapping → Except String Unit := fun _ => .ok ()

/-- A callback that always raises. -/
def errCb : TopicMapping → Except String Unit := fun _ => .error "Boom!"

/-- A client factory that fails exactly on cluster `"bad"`. -/
def sampleMk : String → Option Nat := fun s => if s = "bad" then none else some 7

/-! # Theorems -/

/-- The SHA-1 implementation matches the standard `"abc"` test vector. -/
theorem sha1hex_abc : sha1hex "abc" = "a9993e364706816aba3e25717850c26c9cd0d89d" := by
  decide

/-- `release_and_finish_state` never changes the supply of primitive
identities. -/
theorem release_and_finish_state_create_count (st : CoordState) :
    (release_and_finish_state st).create_count = st.create_count := by
  unfold release_and_finish_state
  split <;> rfl

/-- C1: On every refresh of the Partition Coordinator, if the recomputed
Target Partition Set equals the stored set and a live primitive exists, the
same primitive instance is returned with no teardown and no creation (even
when the refresh was forced); if the set differs or no primitive exists,
exactly one teardown and one creation occur and the new set is stored (the
`Option` handle keeps at most one live primitive at all times). -/
theorem refresh_identity_and_rebalance
    (cooldown now : Nat) (P : Finset String) (st : CoordState)
    (hentry : need_partitions_refresh cooldown now st = true ∨ st.kpartitioner = none) :
    (P = st.partitions_set → st.kpartitioner ≠ none →
      (get_partitioner_step cooldown now (.ok P) st).ret = st.kpartitioner ∧
      (get_partitioner_step cooldown now (.ok P) st).st.kpartitioner = st.kpartitioner ∧
      (get_partitioner_step cooldown now (.ok P) st).st.partitions_set = st.partitions_set ∧
      (get_partitioner_step cooldown now (.ok P) st).teardowns = 0 ∧
      (get_partitioner_step cooldown now (.ok P) st).creations = 0) ∧
    ((P ≠ st.partitions_set ∨ st.kpartitioner = none) →
      (get_partitioner_step cooldown now (.ok P) st).teardowns = 1 ∧
      (get_partitioner_step cooldown now (.ok P) st).creations = 1 ∧
      (get_partitioner_step cooldown now (.ok P) st).st.partitions_set = P ∧
      (get_partitioner_step cooldown now (.ok P) st).ret = some st.create_count ∧
      (get_partitioner_step cooldown now (.ok P) st).st.kpartitioner =
        some st.create_count) := by
  unfold get_partitioner_step
  rw [if_pos hentry]
  constructor
  · intro hP hk
    have hcond : P = st.partitions_set ∧ ¬st.kpartitioner = none := ⟨hP, hk⟩
    simp [ne_eq, if_pos hcond]
  · intro hd
    have hcond : ¬(P = st.partitions_set ∧ ¬st.kpartitioner = none) := by
      rcases hd with h | h
      · exact fun hc => h hc.1
      · exact fun hc => hc.2 h
    simp [ne_eq, if_neg hcond, release_and_finish_state_create_count]

/-- Witness for C1: concrete unchanged-set refresh on `sampleState` (forced
refresh, live primitive `0`): the primitive is reused and nothing is torn
down or created. -/
theorem refresh_identity_and_rebalance_witness :
    (get_partitioner_step 1 10 (.ok sampleState.partitions_set) sampleState).ret = some 0 ∧
    (get_partitioner_step 1 10 (.ok sampleState.partitions_set) sampleState).teardowns = 0 :=
  have h := (refresh_identity_and_rebalance 1 10 sampleState.partitions_set sampleState
    (Or.inl (by decide))).1 rfl (by decide)
  ⟨h.1, h.2.2.2.1⟩

/-- C2: Two consecutive RELEASE observations with the Released Flag initially
unset invoke the caller's release callback exactly once, with the Acquired
Partition Mapping held at the first observation, while the primitive's
`release_set` is signalled on both occurrences; the second observation is a
no-op at the callback level. -/
theorem handle_release_twice_callback_once
    (acb rcb : TopicMapping → Except String Unit) (held : List String)
    (st : CoordState) (M : TopicMapping)
    (hflag : st.released_flag = false) (hM : st.acquired_partitions = M)
    (hok : rcb M = .ok ()) :
    (handle_group acb rcb .release held st).releaseCalls = [M] ∧
    (handle_group acb rcb .release held
      (handle_group acb rcb .release held st).st).releaseCalls = [] ∧
    (handle_group acb rcb .release held st).releaseSetCalls = 1 ∧
    (handle_group acb rcb .release held
      (handle_group acb rcb .release held st).st).releaseSetCalls = 1 := by
  subst hM
  simp [handle_group, hflag, hok]

/-- Witness for C2: two RELEASE observations on `sampleState` with an
always-succeeding callback: one callback invocation with the held mapping,
two `release_set` signals. -/
theorem handle_release_twice_callback_once_witness :
    (handle_group okCb okCb .release [] sampleState).releaseCalls =
      [[("topic1", [0, 1, 3])]] ∧
    (handle_group okCb okCb .release []
      (handle_group okCb okCb .release [] sampleState).st).releaseCalls = [] ∧
    (handle_group okCb okCb .release []
      (handle_group okCb okCb .release [] sampleState).st).releaseSetCalls = 1 :=
  have h := handle_release_twice_callback_once okCb okCb [] sampleState
    [("topic1", [0, 1, 3])] rfl rfl rfl
  ⟨h.1, h.2.1, h.2.2.2⟩

/-- C3: An ACQUIRED observation commits the parse of the primitive's held
identifiers (each split at its last `-` into topic and unsigned index) as
the Acquired Partition Mapping, clears the Released Flag, and invokes the
acquire callback exactly once with that mapping; the identifiers
`["topic1-0", "topic1-2", "topic-2-1"]` parse to
`{topic1 ↦ [0, 2], topic-2 ↦ [1]}`. -/
theorem handle_acquired_commits_mapping
    (acb rcb : TopicMapping → Except String Unit) (held : List String)
    (st : CoordState) (m : TopicMapping)
    (hparse : get_acquired_partitions held = some m) :
    (handle_group acb rcb .acquired held st).st.acquired_partitions = m ∧
    (handle_group acb rcb .acquired held st).st.released_flag = false ∧
    (handle_group acb rcb .acquired held st).acquireCalls = [m] ∧
    get_acquired_partitions ["topic1-0", "topic1-2", "topic-2-1"] =
      some [("topic1", [0, 2]), ("topic-2", [1])] := by
  refine ⟨?_, ?_, ?_, by decide⟩ <;>
    cases hcb : acb m <;> simp [handle_group, hparse, hcb]

/-- Witness for C3: the ACQUIRED observation on `sampleState` with held
identifiers `["topic1-0", "topic1-2", "topic-2-1"]`. -/
theorem handle_acquired_commits_mapping_witness :
    (handle_group okCb okCb .acquired ["topic1-0", "topic1-2", "topic-2-1"]
      sampleState).st.acquired_partitions = [("topic1", [0, 2]), ("topic-2", [1])] ∧
    (handle_group okCb okCb .acquired ["topic1-0", "topic1-2", "topic-2-1"]
      sampleState).st.released_flag = false :=
  have h := handle_acquired_commits_mapping okCb okCb
    ["topic1-0", "topic1-2", "topic-2-1"] sampleState
    [("topic1", [0, 2]), ("topic-2", [1])] (by decide)
  ⟨h.1, h.2.1⟩

/-- C4: A raising caller callback makes the tick raise a coordinator-level
`PartitionerError`, but the primitive-facing transition still completes:
under RELEASE the `release_set` acknowledgement is still signalled, and
under ACQUIRED the parsed mapping is still committed before the error is
raised. -/
theorem callback_failure_still_completes
    (acb rcb : TopicMapping → Except String Unit) (held : List String)
    (st : CoordState) (m : TopicMapping) (e1 e2 : String)
    (hflag : st.released_flag = false)
    (hr : rcb st.acquired_partitions = .error e1)
    (hparse : get_acquired_partitions held = some m)
    (ha : acb m = .error e2) :
    (handle_group acb rcb .release held st).err =
      some (.partitionerError ("Release handler failed: " ++ e1)) ∧
    (handle_group acb rcb .release held st).releaseSetCalls = 1 ∧
    (handle_group acb rcb .acquired held st).err =
      some (.partitionerError ("Acquire handler failed: " ++ e2)) ∧
    (handle_group acb rcb .acquired held st).st.acquired_partitions = m := by
  simp [handle_group, hflag, hr, hparse, ha]

/-- Witness for C4: an always-raising callback on `sampleState`, under both
RELEASE and ACQUIRED. -/
theorem callback_failure_still_completes_witness :
    (handle_group errCb errCb .release ["topic1-0"] sampleState).err =
      some (.partitionerError "Release handler failed: Boom!") ∧
    (handle_group errCb errCb .release ["topic1-0"] sampleState).releaseSetCalls = 1 ∧
    (handle_group errCb errCb .acquired ["topic1-0"] sampleState).st.acquired_partitions =
      [("topic1", [0])] :=
  have h := callback_failure_still_completes errCb errCb ["topic1-0"] sampleState
    [("topic1", [0])] "Boom!" "Boom!" rfl rfl (by decide) rfl
  ⟨h.1, h.2.1, h.2.2.2⟩

/-- C5: A FAILURE observation performs exactly one teardown
(`release_and_finish`-class call) and raises the fatal Zookeeper-level
error, regardless of what was acquired; and a failing Target-Partition-Set
recomputation during a forced refresh likewise performs exactly one
teardown before raising a `PartitionerError`. -/
theorem failure_and_forced_refresh_teardown
    (acb rcb : TopicMapping → Except String Unit) (held : List String)
    (st st2 : CoordState) (cooldown now : Nat) (e : String)
    (hforce : st2.force_partitions_refresh = true) :
    (handle_group acb rcb .failure held st).teardowns = 1 ∧
    (handle_group acb rcb .failure held st).err =
      some (.zookeeperError "Lost or unable to acquire partitions") ∧
    (get_partitioner_step cooldown now (.error e) st2).teardowns = 1 ∧
    (get_partitioner_step cooldown now (.error e) st2).err =
      some (.partitionerError ("Failed to get partitions set from Kafka: " ++ e)) := by
  refine ⟨by simp [handle_group], by simp [handle_group], ?_, ?_⟩ <;>
    simp [get_partitioner_step, need_partitions_refresh, hforce]

/-- Witness for C5: FAILURE on `sampleState` (which holds acquired
partitions) and a failing forced recomputation on `sampleState`. -/
theorem failure_and_forced_refresh_teardown_witness :
    (handle_group okCb okCb .failure [] sampleState).teardowns = 1 ∧
    (get_partitioner_step 1 10 (.error "Boom!") sampleState).teardowns = 1 :=
  have h := failure_and_forced_refresh_teardown okCb okCb [] sampleState sampleState
    1 10 "Boom!" rfl
  ⟨h.1, h.2.2.1⟩

/-- C6: The group path equals `root/group/sha1hex(repr(sorted(topics)))`
when hashed naming is enabled and `root/group` (independent of the topic
set) when disabled; it is a pure function of its inputs, hence
deterministic across restarts.  Bit-exactness is pinned by the digest of
`repr(sorted(["topic1", "topic2"]))` used in the repository's tests. -/
theorem zk_group_path_contract :
    (∀ (g : String) (T : List String), zk_group_path true g T =
      "/yelp-kafka/" ++ g ++ "/" ++ sha1hex (pyReprList (sortStrings T))) ∧
    (∀ (g : String) (T U : List String),
      zk_group_path false g T = zk_group_path false g U) ∧
    zk_group_path true "test_group" ["topic1", "topic2"] =
      "/yelp-kafka/test_group/f517baba9b4ddf16e0512b91c1fe971c2d5b7a23" ∧
    zk_group_path false "test_group" ["topic1", "topic2"] =
      "/yelp-kafka/test_group" := by
  refine ⟨fun g T => rfl, fun g T U => ?_, by decide, rfl⟩
  simp [zk_group_path]

/-- C7: The primitive factory constructs the primitive with exactly the
deterministic group path, the target set, and a time boundary equal to the
configured cooldown, and issues a (re)connect request on the session if and
only if the session is not connected. -/
theorem create_partitioner_contract
    (zkState : KazooState) (use_sha : Bool) (g : String) (T : List String)
    (cooldown : Nat) (S : Finset String) :
    (create_partitioner zkState true (zk_group_path use_sha g T) cooldown S).created =
      some (zk_group_path use_sha g T, S, cooldown) ∧
    (create_partitioner zkState true (zk_group_path use_sha g T) cooldown S).startCalls =
      (if zkState = KazooState.connected then 0 else 1) ∧
    (create_partitioner zkState true (zk_group_path use_sha g T) cooldown S).err =
      none := by
  cases zkState <;> simp [create_partitioner]

/-- C8: `get_partitions_set` returns exactly the identifiers
`topic-index` for each requested topic and each of its sub-partition
indices in the broker metadata, and nothing for unrequested topics; with
topic1 ↦ 4, topic2 ↦ 3, topic3 ↦ 4 partitions and request
`{topic1, topic2}`, the result is exactly `{topic1-0..3, topic2-0..2}`. -/
theorem get_partitions_set_exact
    (topics : List String) (metadata : List (String × List Nat)) :
    (∀ s : String, s ∈ get_partitions_set topics metadata ↔
      ∃ t ∈ topics, ∃ e, metadata.find? (fun p => p.1 == t) = some e ∧
        ∃ p ∈ e.2, s = renderPartition t p) ∧
    get_partitions_set ["topic1", "topic2"]
        [("topic1", [0, 1, 2, 3]), ("topic2", [0, 1, 2]), ("topic3", [0, 1, 2, 3])] =
      (["topic1-0", "topic1-1", "topic1-2", "topic1-3",
        "topic2-0", "topic2-1", "topic2-2"] : List String).toFinset := by
  refine ⟨fun s => ?_, by decide⟩
  simp only [get_partitions_set, List.mem_toFinset, List.mem_flatten, List.mem_map]
  constructor
  · rintro ⟨l, ⟨t, ht, rfl⟩, hs⟩
    refine ⟨t, ht, ?_⟩
    unfold topic_partition_ids at hs
    cases h : metadata.find? (fun p => p.1 == t) with
    | none => rw [h] at hs; simp at hs
    | some e =>
      rw [h] at hs
      obtain ⟨p, hp, rfl⟩ := List.mem_map.mp hs
      exact ⟨e, rfl, p, hp, rfl⟩
  · rintro ⟨t, ht, e, he, p, hp, rfl⟩
    refine ⟨topic_partition_ids metadata t, ⟨t, ht, rfl⟩, ?_⟩
    unfold topic_partition_ids
    rw [he]
    exact List.mem_map.mpr ⟨p, hp, rfl⟩

/-- C9: `close_connections` resets the Target Partition Set to empty, the
primitive handle to none, and the Refresh Clock to zero; it stops and
closes the coordination-service session and closes the broker connection
exactly once; it never raises, and calling it again immediately leaves the
state unchanged (a no-op). -/
theorem close_connections_resets (st : CoordState) :
    (close_connections st).st.partitions_set = ∅ ∧
    (close_connections st).st.kpartitioner = none ∧
    (close_connections st).st.last_partitions_refresh = 0 ∧
    (close_connections st).zkStopCalls = 1 ∧
    (close_connections st).zkCloseCalls = 1 ∧
    (close_connections st).kafkaCloseCalls = 1 ∧
    (close_connections (close_connections st).st).st = (close_connections st).st := by
  cases h : st.kpartitioner <;>
    simp [close_connections, release_and_finish_state, h]

/-- When every cluster's client can be created, the connection loop returns
all clients, closing none. -/
theorem get_kafka_connection_aux_ok (mk : String → Option Nat)
    (clusters : List String) :
    ∀ acc : List (String × Nat), (∀ a ∈ clusters, (mk a).isSome = true) →
      get_kafka_connection_aux mk acc clusters =
        { result := .ok (acc ++ clusters.map fun a => (a, (mk a).getD 0))
          opened := acc.map Prod.snd ++ clusters.map fun a => (mk a).getD 0
          closed := [] } := by
  induction clusters with
  | nil => intro acc _; simp [get_kafka_connection_aux]
  | cons c rest ih =>
    intro acc h
    obtain ⟨v, hv⟩ := Option.isSome_iff_exists.mp (h c (List.mem_cons_self c rest))
    rw [get_kafka_connection_aux, hv]
    dsimp only
    rw [ih (acc ++ [(c, v)]) (fun a ha => h a (List.mem_cons_of_mem _ ha))]
    simp [hv]

/-- When client creation fails at cluster `c` after the clusters of `pre`
succeeded, the connection loop closes every client it opened and raises a
`DiscoveryError` naming `c`. -/
theorem get_kafka_connection_aux_err (mk : String → Option Nat)
    (pre : List String) :
    ∀ (acc : List (String × Nat)) (c : String) (post : List String),
      (∀ a ∈ pre, (mk a).isSome = true) → mk c = none →
      get_kafka_connection_aux mk acc (pre ++ c :: post) =
        { result := .error ("Failed to connect to cluster " ++ c)
          opened := acc.map Prod.snd ++ pre.map fun a => (mk a).getD 0
          closed := acc.map Prod.snd ++ pre.map fun a => (mk a).getD 0 } := by
  induction pre with
  | nil => intro acc c post _ hc; simp [get_kafka_connection_aux, hc]
  | cons p rest ih =>
    intro acc c post h hc
    obtain ⟨v, hv⟩ := Option.isSome_iff_exists.mp (h p (List.mem_cons_self p rest))
    rw [List.cons_append, get_kafka_connection_aux, hv]
    dsimp only
    rw [ih (acc ++ [(p, v)]) c post (fun a ha => h a (List.mem_cons_of_mem _ ha)) hc]
    simp [hv]

/-- C10: `get_kafka_connection` is all-or-nothing: if every cluster's client
can be created it returns all of them and closes none; if creation fails at
some cluster, it closes exactly the clients it had already opened for the
earlier clusters and raises a `DiscoveryError` naming the failed cluster,
returning no client. -/
theorem get_kafka_connection_all_or_nothing
    (mk : String → Option Nat) (clusters pre post : List String) (c : String)
    (hall : ∀ a ∈ clusters, (mk a).isSome = true)
    (hpre : ∀ a ∈ pre, (mk a).isSome = true) (hc : mk c = none) :
    ((get_kafka_connection mk clusters).result =
        .ok (clusters.map fun a => (a, (mk a).getD 0)) ∧
      (get_kafka_connection mk clusters).closed = []) ∧
    ((get_kafka_connection mk (pre ++ c :: post)).result =
        .error ("Failed to connect to cluster " ++ c) ∧
      (get_kafka_connection mk (pre ++ c :: post)).closed =
        (get_kafka_connection mk (pre ++ c :: post)).opened ∧
      (get_kafka_connection mk (pre ++ c :: post)).opened =
        pre.map fun a => (mk a).getD 0) := by
  unfold get_kafka_connection
  rw [get_kafka_connection_aux_ok mk clusters [] hall,
    get_kafka_connection_aux_err mk pre [] c post hpre hc]
  simp

/-- Witness for C10: `sampleMk` fails exactly on cluster `"bad"`; connecting
to `["a", "b"]` yields both clients, and connecting to `["a", "bad", "b"]`
closes the client opened for `"a"` and raises the error naming `"bad"`. -/
theorem get_kafka_connection_all_or_nothing_witness :
    (get_kafka_connection sampleMk ["a", "b"]).result =
      .ok [("a", 7), ("b", 7)] ∧
    (get_kafka_connection sampleMk (["a"] ++ "bad" :: ["b"])).result =
      .error "Failed to connect to cluster bad" ∧
    (get_kafka_connection sampleMk (["a"] ++ "bad" :: ["b"])).closed = [7] :=
  have h := get_kafka_connection_all_or_nothing sampleMk ["a", "b"] ["a"] ["b"] "bad"
    (by decide) (by decide) (by decide)
  ⟨h.1.1, h.2.1, h.2.2.1.trans h.2.2.2⟩

end YelpKafka
